import Mathlib

/-!
Verification development for the Early (Timeular) MCP server
(`early_mcp.py`).  The shared core is shallowly embedded: JSON values,
Python-style dictionary access and truthiness, the `datetime.fromisoformat`
parser restricted to the inputs reachable from this program (callers always
cut the string at the first `.`, so fractional seconds never reach the
parser), the token cache (`get_token`), the request dispatcher
(`api_request`), error formatting (`handle_error`), duration formatting
(`format_duration`) and the report aggregation loop of
`early_generate_report`.  Network effects are modelled by passing the
outcome the HTTP client would produce (`HttpOutcome`) as an explicit
argument and returning the list of requests that were issued.
-/

namespace EarlyMCP

/-- JSON values as produced by `resp.json()`.  Numbers are modelled as
integers: every numeric field reachable in this program is integral. -/
inductive Json where
  | null
  | bool (b : Bool)
  | num (n : Int)
  | str (s : String)
  | arr (elems : List Json)
  | obj (fields : List (String × Json))

/-- Lookup of a key in a parsed JSON object (Python dict lookup; parsed
dictionaries have unique keys). -/
def jsonLookup : List (String × Json) → String → Option Json
  | [], _ => none
  | (k, v) :: rest, key => if k == key then some v else jsonLookup rest key

mutual

/-- Structural equality of JSON values, as Python `==` on the decoded
objects (the numeric cross-type equalities such as `True == 1` are not
reachable for the dictionary keys this program compares). -/
def jsonBeq : Json → Json → Bool
  | .null, .null => true
  | .bool a, .bool b => a == b
  | .num a, .num b => a == b
  | .str a, .str b => a == b
  | .arr a, .arr b => jsonListBeq a b
  | .obj a, .obj b => jsonFieldsBeq a b
  | _, _ => false

/-- Elementwise equality of JSON arrays. -/
def jsonListBeq : List Json → List Json → Bool
  | [], [] => true
  | x :: xs, y :: ys => jsonBeq x y && jsonListBeq xs ys
  | _, _ => false

/-- Fieldwise equality of JSON objects (insertion order sensitive; the
program only ever compares strings, where this agrees with Python). -/
def jsonFieldsBeq : List (String × Json) → List (String × Json) → Bool
  | [], [] => true
  | (k1, v1) :: xs, (k2, v2) :: ys => k1 == k2 && jsonBeq v1 v2 && jsonFieldsBeq xs ys
  | _, _ => false

end

instance : BEq Json := ⟨jsonBeq⟩

mutual

/-- Python `repr` of a decoded JSON value. -/
def pyRepr : Json → String
  | .null => "None"
  | .bool true => "True"
  | .bool false => "False"
  | .num n => toString n
  | .str s => "\x27" ++ s ++ "\x27"
  | .arr xs => "[" ++ String.intercalate ", " (pyReprList xs) ++ "]"
  | .obj fs => "\x7b" ++ String.intercalate ", " (pyReprFields fs) ++ "\x7d"

/-- Renders each element of a JSON array with `pyRepr`. -/
def pyReprList : List Json → List String
  | [] => []
  | x :: xs => pyRepr x :: pyReprList xs

/-- Renders each field of a JSON object with `pyRepr`. -/
def pyReprFields : List (String × Json) → List String
  | [] => []
  | (k, v) :: fs => ("\x27" ++ k ++ "\x27: " ++ pyRepr v) :: pyReprFields fs

end

/-- Python `str()` of a decoded JSON value, as used by f-string
interpolation. -/
def pyStr : Json → String
  | .str s => s
  | j => pyRepr j

/-- Python type name of a decoded JSON value (used in exception texts). -/
def pyTypeName : Json → String
  | .null => "NoneType"
  | .bool _ => "bool"
  | .num _ => "int"
  | .str _ => "str"
  | .arr _ => "list"
  | .obj _ => "dict"

/-- Python truthiness of a decoded JSON value. -/
def truthy : Json → Bool
  | .null => false
  | .bool b => b
  | .num n => n != 0
  | .str s => s != ""
  | .arr xs => !xs.isEmpty
  | .obj fs => !fs.isEmpty

/-! ### Python datetime model

The program parses timestamps with `datetime.fromisoformat` after cutting
the input at the first `.`, so the parser below covers the CPython grammar
`YYYY-MM-DD[<sep>HH[:MM[:SS]][(+|-)HH:MM[:SS]]]` without fractional
seconds.  A parsed value is represented by its proleptic Gregorian ordinal
day, its second of day, and an optional UTC offset (aware vs naive). -/

/-- Parsed Python datetime: ordinal day, second of the day, and optional
timezone offset in seconds (`none` means naive). -/
structure PyDateTime where
  ord : Nat
  secs : Nat
  offset : Option Int
  deriving DecidableEq

/-- Gregorian leap-year rule. -/
def isLeap (y : Nat) : Bool := (y % 4 == 0 && y % 100 != 0) || y % 400 == 0

/-- Number of days in a month of a given year. -/
def daysInMonth (y m : Nat) : Nat :=
  if m == 2 then (if isLeap y then 29 else 28)
  else if m == 4 || m == 6 || m == 9 || m == 11 then 30
  else 31

/-- Days in year `y` before the first day of month `m`. -/
def daysBeforeMonth (y m : Nat) : Nat :=
  ((List.range (m - 1)).map (fun i => daysInMonth y (i + 1))).sum

/-- Proleptic Gregorian ordinal of a date (Jan 1 of year 1 is day 1),
matching `datetime.toordinal`. -/
def dateOrdinal (y m d : Nat) : Nat :=
  let n := y - 1
  365 * n + n / 4 - n / 100 + n / 400 + daysBeforeMonth y m + d

/-- Numeric value of a decimal digit character. -/
def digitVal (c : Char) : Option Nat :=
  if c.isDigit then some (c.toNat - 48) else none

/-- Parses exactly two decimal digits. -/
def parse2 : List Char → Option (Nat × List Char)
  | c1 :: c2 :: rest => do
    let d1 ← digitVal c1
    let d2 ← digitVal c2
    pure (10 * d1 + d2, rest)
  | _ => none

/-- Parses exactly four decimal digits. -/
def parse4 : List Char → Option (Nat × List Char)
  | c1 :: c2 :: c3 :: c4 :: rest => do
    let d1 ← digitVal c1
    let d2 ← digitVal c2
    let d3 ← digitVal c3
    let d4 ← digitVal c4
    pure (1000 * d1 + 100 * d2 + 10 * d3 + d4, rest)
  | _ => none

/-- Parses the time components `HH[:MM[:SS]]` of an isoformat string. -/
def parseHMS : List Char → Option (Nat × Nat × Nat × List Char) := fun cs => do
  let (hh, r1) ← parse2 cs
  match r1 with
  | ':' :: r2 => do
    let (mm, r3) ← parse2 r2
    match r3 with
    | ':' :: r4 => do
      let (ss, r5) ← parse2 r4
      pure (hh, mm, ss, r5)
    | _ => pure (hh, mm, 0, r3)
  | _ => pure (hh, 0, 0, r1)

/-- Parses the timezone suffix `(+|-)HH:MM[:SS]` of an isoformat string;
the whole remainder must be consumed and the offset magnitude must be
below 24 hours (the `timezone` constructor check). -/
def parseTzSuffix : List Char → Option Int
  | sign :: r1 => do
    let sgn : Int ← if sign == '+' then some 1 else if sign == '-' then some (-1) else none
    let (th, r2) ← parse2 r1
    match r2 with
    | ':' :: r3 => do
      let (tm, r4) ← parse2 r3
      let (ts, r5) ← (match r4 with
        | ':' :: r6 => parse2 r6
        | _ => pure (0, r4))
      let total := th * 3600 + tm * 60 + ts
      if r5 == [] && total < 86400 then pure (sgn * total) else none
    | _ => none
  | [] => none

/-- Model of `datetime.fromisoformat` (CPython, restricted to inputs
without fractional seconds, which is all this program ever passes): a
`YYYY-MM-DD` date, optionally followed by an arbitrary one-character
separator, `HH[:MM[:SS]]`, and an optional `(+|-)HH:MM[:SS]` offset.
Fails (returns `none` for the raised `ValueError`) on any malformed or
out-of-range input. -/
def fromisoformatCh (cs : List Char) : Option PyDateTime := do
  let (y, r1) ← parse4 cs
  match r1 with
  | '-' :: r2 =>
    let (mo, r3) ← parse2 r2
    match r3 with
    | '-' :: r4 => do
      let (d, r5) ← parse2 r4
      if 1 ≤ y && 1 ≤ mo && mo ≤ 12 && 1 ≤ d && d ≤ daysInMonth y mo then
        match r5 with
        | [] => pure ⟨dateOrdinal y mo d, 0, none⟩
        | _sep :: tcs => do
          let (hh, mm, ss, r6) ← parseHMS tcs
          if hh ≤ 23 && mm ≤ 59 && ss ≤ 59 then
            let secs := hh * 3600 + mm * 60 + ss
            match r6 with
            | [] => pure ⟨dateOrdinal y mo d, secs, none⟩
            | _ => do
              let off ← parseTzSuffix r6
              pure ⟨dateOrdinal y mo d, secs, some off⟩
          else none
      else none
    | _ => none
  | _ => none

/-- String-level entry point of the `fromisoformat` model. -/
def fromisoformat (s : String) : Option PyDateTime :=
  fromisoformatCh s.data

/-- Subtraction of Python datetimes in whole seconds: defined when both
are naive or both aware (mixing raises `TypeError`, modelled as `none`);
aware values are compared in UTC. -/
def pySub (a b : PyDateTime) : Option Int :=
  match a.offset, b.offset with
  | none, none =>
    some (((a.ord : Int) - (b.ord : Int)) * 86400 + ((a.secs : Int) - (b.secs : Int)))
  | some oa, some ob =>
    some (((a.ord : Int) - (b.ord : Int)) * 86400 + ((a.secs : Int) - (b.secs : Int)) - (oa - ob))
  | _, _ => none

/-! ### Errors, HTTP outcomes, token cache and dispatcher -/

/-- Response body as seen by the dispatcher: empty content, non-empty
content that fails JSON decoding (with the decoder message), or decoded
JSON content. -/
inductive Body where
  | empty
  | invalid (desc : String)
  | valid (j : Json)

/-- Emptiness test of the body, the Python `not resp.content` check. -/
def Body.isEmptyContent : Body → Bool
  | .empty => true
  | _ => false

/-- Python exceptions reachable in the core, each carrying the text that
`str(e)` would produce (for `httpx.HTTPStatusError` the library-built
description and the response are carried). -/
inductive PyErr where
  | valueError (msg : String)
  | httpStatusError (status : Nat) (body : Body) (desc : String)
  | transportError (desc : String)
  | jsonDecodeError (desc : String)
  | keyError (key : String)
  | typeError (msg : String)
  | attributeError (msg : String)

/-- Outcome of one HTTP call, supplied by the environment: a
transport-level failure, or a response with status code, body, and the
description `httpx` would attach to an `HTTPStatusError` for it. -/
inductive HttpOutcome where
  | transportErr (desc : String)
  | response (status : Nat) (body : Body) (desc : String)

/-- Module-level token cache `_token_cache = {"token": None, "expires": None}`;
expiry is in seconds. -/
structure TokenCache where
  token : Option String
  expires : Option Nat

/-- Fixed base URL of the upstream API. -/
def BASE_URL : String := "https://api.early.app/api/v4"

/-- Message of the `ValueError` raised on missing credentials. -/
def CREDS_ERROR_MSG : String :=
  "EARLY_API_KEY and EARLY_API_SECRET environment variables required"

/-- Record of one sign-in POST issued by `get_token`. -/
structure SignInRequest where
  url : String
  jsonBody : List (String × String)
  timeoutSecs : Nat

/-- The sign-in request `get_token` issues: fixed endpoint, credentials as
the JSON body, 30 second timeout. -/
def mkSignInRequest (apiKey apiSecret : String) : SignInRequest :=
  ⟨BASE_URL ++ "/developer/sign-in", [("apiKey", apiKey), ("apiSecret", apiSecret)], 30⟩

/-- Cache-hit condition of `get_token`:
`_token_cache["token"] and _token_cache["expires"] and _token_cache["expires"] > now`
(a `datetime` is always truthy, an empty token string is falsy). -/
def tokenCacheValid (c : TokenCache) (now : Nat) : Bool :=
  match c.token, c.expires with
  | some t, some e => t != "" && now < e
  | _, _ => false

/-- Python dict subscript `j[key]` on a decoded JSON value. -/
def pySubscript (j : Json) (key : String) : Except PyErr Json :=
  match j with
  | .obj fs =>
    match jsonLookup fs key with
    | some v => .ok v
    | none => .error (.keyError key)
  | .str _ => .error (.typeError "string indices must be integers")
  | .arr _ => .error (.typeError "list indices must be integers or slices, not str")
  | _ => .error (.typeError ("\x27" ++ pyTypeName j ++ "\x27 object is not subscriptable"))

/-- Python `j.get(key, default)` on a decoded JSON value (raises
`AttributeError` when `j` is not a dict). -/
def dictGet (j : Json) (key : String) (default : Json) : Except PyErr Json :=
  match j with
  | .obj fs => .ok ((jsonLookup fs key).getD default)
  | _ => .error (.attributeError ("\x27" ++ pyTypeName j ++ "\x27 object has no attribute \x27get\x27"))

/-- Python `key in j` on a decoded JSON value. -/
def pyContains (j : Json) (key : String) : Except PyErr Bool :=
  match j with
  | .obj fs => .ok (fs.any (fun f => f.1 == key))
  | .arr xs => .ok (xs.any (fun x => jsonBeq x (.str key)))
  | .str s => .ok (key == "" || (s.splitOn key).length != 1)
  | _ => .error (.typeError ("argument of type \x27" ++ pyTypeName j ++ "\x27 is not iterable"))

/-- Sign-in branch of `get_token` (lines 35-45): posts the credentials to
the fixed endpoint, raises for a non-2xx status, extracts
`resp.json()["token"]`, and only then writes both cache fields and
returns the token. -/
def signInFlow (apiKey apiSecret : String) (cache : TokenCache) (now : Nat)
    (env : HttpOutcome) : Except PyErr String × TokenCache × List SignInRequest :=
  let req := mkSignInRequest apiKey apiSecret
  match env with
  | .transportErr d => (.error (.transportError d), cache, [req])
  | .response st body d =>
    if st / 100 != 2 then (.error (.httpStatusError st body d), cache, [req])
    else
      match body with
      | .empty => (.error (.jsonDecodeError "Expecting value: line 1 column 1 (char 0)"), cache, [req])
      | .invalid d2 => (.error (.jsonDecodeError d2), cache, [req])
      | .valid j =>
        match pySubscript j "token" with
        | .error e => (.error e, cache, [req])
        | .ok v => (.ok (pyStr v), ⟨some (pyStr v), some (now + 3600)⟩, [req])

/-- Model of `get_token` (lines 26-45): rejects missing or empty
credentials before anything else, serves a valid cached token with no
network call, and otherwise runs the sign-in exchange.  Returns the
result, the cache after the call, and the list of sign-in requests
issued. -/
def get_token (apiKey apiSecret : String) (cache : TokenCache) (now : Nat)
    (env : HttpOutcome) : Except PyErr String × TokenCache × List SignInRequest :=
  if apiKey == "" || apiSecret == "" then
    (.error (.valueError CREDS_ERROR_MSG), cache, [])
  else
    match cache.token, cache.expires with
    | some t, some e =>
      if t != "" && now < e then (.ok t, cache, [])
      else signInFlow apiKey apiSecret cache now env
    | _, _ => signInFlow apiKey apiSecret cache now env

/-- Record of one authenticated request issued by `api_request`. -/
structure ApiRequest where
  method : String
  url : String
  authHeader : String
  jsonBody : Option Json
  timeoutSecs : Nat

/-- Model of `api_request` (lines 48-62): obtains a token via `get_token`
(errors propagate unchanged, issuing no request of its own), issues one
request with the bearer header, raises for non-2xx, returns the canonical
success marker for a 204 status or empty content, and otherwise decodes
the body as JSON. -/
def api_request (apiKey apiSecret : String) (cache : TokenCache) (now : Nat)
    (signInEnv : HttpOutcome) (method endpoint : String) (json_data : Option Json)
    (reqEnv : HttpOutcome) :
    Except PyErr Json × TokenCache × List SignInRequest × List ApiRequest :=
  match get_token apiKey apiSecret cache now signInEnv with
  | (.error e, cache2, sreqs) => (.error e, cache2, sreqs, [])
  | (.ok token, cache2, sreqs) =>
    let req : ApiRequest := ⟨method, BASE_URL ++ endpoint, "Bearer " ++ token, json_data, 30⟩
    match reqEnv with
    | .transportErr d => (.error (.transportError d), cache2, sreqs, [req])
    | .response st body d =>
      if st / 100 != 2 then (.error (.httpStatusError st body d), cache2, sreqs, [req])
      else if st == 204 || body.isEmptyContent then
        (.ok (.obj [("success", .bool true)]), cache2, sreqs, [req])
      else
        match body with
        | .empty => (.ok (.obj [("success", .bool true)]), cache2, sreqs, [req])
        | .invalid d2 => (.error (.jsonDecodeError d2), cache2, sreqs, [req])
        | .valid j => (.ok j, cache2, sreqs, [req])

/-- Message chosen by `handle_error` for a status error:
`e.response.json().get("message", str(e))` with any extraction failure
falling back to `str(e)`. -/
def statusErrMessage (body : Body) (desc : String) : String :=
  match body with
  | .valid (.obj fs) =>
    match jsonLookup fs "message" with
    | some v => pyStr v
    | none => desc
  | _ => desc

/-- Model of `handle_error` (lines 78-87): status errors render as
`Error <code>: <message>`, everything else as `Error: <str(e)>`. -/
def handle_error : PyErr → String
  | .httpStatusError status body desc =>
    "Error " ++ toString status ++ ": " ++ statusErrMessage body desc
  | .valueError m => "Error: " ++ m
  | .transportError d => "Error: " ++ d
  | .jsonDecodeError d => "Error: " ++ d
  | .keyError k => "Error: \x27" ++ k ++ "\x27"
  | .typeError m => "Error: " ++ m
  | .attributeError m => "Error: " ++ m

/-- Normalized error kinds of the spec taxonomy. -/
inductive ErrKind where
  | Unauthenticated
  | NotFound
  | RemoteStatus (code : Nat)
  | Transport
  | InvalidResponse
  deriving DecidableEq

/-- Modelled from the spec: the NormalizedError `kind` classification
(spec sections 3 and 7).  The code has no explicit kind type; the
`ValueError` raised for missing credentials is the Unauthenticated case,
the `status_code == 404` special case in `early_get_tracking` and
`early_today_summary` realizes NotFound, other status codes are
RemoteStatus, request/timeout failures are Transport, and a JSON decode
failure of a success body is InvalidResponse. -/
def errKind : PyErr → ErrKind
  | .valueError _ => .Unauthenticated
  | .httpStatusError status _ _ => if status == 404 then .NotFound else .RemoteStatus status
  | .transportError _ => .Transport
  | _ => .InvalidResponse

/-! ### Duration formatting and handlers -/

/-- Python `s.replace("Z", "+00:00")` on the character list (every `Z` is
replaced). -/
def replaceZ : List Char → List Char
  | [] => []
  | 'Z' :: rest => '+' :: '0' :: '0' :: ':' :: '0' :: '0' :: replaceZ rest
  | c :: rest => c :: replaceZ rest

/-- Python `s.split(".")[0]`: the characters before the first dot. -/
def takeUntilDot : List Char → List Char
  | [] => []
  | '.' :: _ => []
  | c :: rest => c :: takeUntilDot rest

/-- Timestamp normalization of `format_duration`:
`start.replace("Z", "+00:00").split(".")[0]`. -/
def normalizeTs (s : String) : List Char :=
  takeUntilDot (replaceZ s.data)

/-- The `<H>h <M>m` rendering shared by the handlers:
`divmod(secs, 3600)` (floor division and floored remainder) followed by
`remainder // 60`. -/
def fmtHM (secs : Int) : String :=
  let hours := Int.fdiv secs 3600
  let remainder := Int.fmod secs 3600
  let minutes := Int.fdiv remainder 60
  toString hours ++ "h " ++ toString minutes ++ "m"

/-- Model of `format_duration` (lines 65-75): normalizes and parses both
timestamps, subtracts, and renders `<H>h <M>m`; any failure inside the
`try` block (parse failure or naive/aware mix) yields the sentinel `?`. -/
def format_duration (start stop : String) : String :=
  match fromisoformatCh (normalizeTs start) with
  | none => "?"
  | some sdt =>
    match fromisoformatCh (normalizeTs stop) with
    | none => "?"
    | some edt =>
      match pySub edt sdt with
      | some delta => fmtHM delta
      | none => "?"

/-- Elapsed-time string of `early_get_tracking` (lines 445-452): parses
`started.split(".")[0]` (no `Z` replacement here), subtracts from the
current time, and falls back to `?` on any failure, including a non-string
`startedAt` and an aware parse against the naive `datetime.now()`. -/
def elapsedStr (started : Json) (now : PyDateTime) : String :=
  match started with
  | .str s =>
    match fromisoformatCh (takeUntilDot s.data) with
    | some dt =>
      match pySub now dt with
      | some secs => fmtHM secs
      | none => "?"
    | none => "?"
  | _ => "?"

/-- Success-path body of `early_get_tracking` (lines 437-463), producing
either the formatted text or the exception the Python block would raise. -/
def early_get_tracking_body (data : Json) (now : PyDateTime) : Except PyErr String := do
  let noTracking ←
    if !truthy data then pure true
    else do
      let hasCT ← pyContains data "currentTracking"
      if hasCT then do
        let v ← pySubscript data "currentTracking"
        pure (jsonBeq v .null)
      else pure false
  if noTracking then pure "No active tracking."
  else do
    let activity ← dictGet data "activity" (.obj [])
    let started ← dictGet data "startedAt" (.str "?")
    let note ← dictGet data "note" (.obj [])
    let noteText ←
      if truthy note then dictGet note "text" (.str "")
      else pure (Json.str "")
    let elapsed := elapsedStr started now
    let nameJ ← dictGet activity "name" (.str "?")
    let idJ ← dictGet activity "id" (.str "?")
    let baseLines := ["## Currently Tracking",
      "**Activity:** " ++ pyStr nameJ ++ " (ID: " ++ pyStr idJ ++ ")",
      "**Started:** " ++ pyStr started,
      "**Elapsed:** " ++ elapsed]
    let allLines :=
      if truthy noteText then baseLines ++ ["**Note:** " ++ pyStr noteText]
      else baseLines
    pure (String.intercalate "\n" allLines)

/-- Exception dispatch of `early_get_tracking` (lines 464-469): a status
error with code 404 yields the domain text, every other exception goes
through `handle_error`. -/
def early_get_tracking_rescue (e : PyErr) : String :=
  match e with
  | .httpStatusError 404 _ _ => "No active tracking."
  | e => handle_error e

/-- Test for the 404 status-error case of the rescue clause. -/
def isStatus404 : PyErr → Bool
  | .httpStatusError 404 _ _ => true
  | _ => false

/-- Model of `early_get_tracking` (lines 433-469) as a function of the
`api_request` outcome for `GET /tracking` and the current time. -/
def early_get_tracking (res : Except PyErr Json) (now : PyDateTime) : String :=
  match res with
  | .ok data =>
    match early_get_tracking_body data now with
    | .ok s => s
    | .error e => early_get_tracking_rescue e
  | .error e => early_get_tracking_rescue e

/-! ### Report aggregation (`early_generate_report`, lines 1181-1206) -/

/-- Hashability of a decoded JSON value as a Python dict key (lists and
dicts are unhashable). -/
def jsonHashable : Json → Bool
  | .arr _ => false
  | .obj _ => false
  | _ => true

/-- Timestamp extraction of the report loop:
`datetime.fromisoformat(duration[field].split(".")[0])`, with any raised
exception (missing key, non-dict duration, non-string value, parse
failure) mapped to `none` because the whole block sits inside the
per-entry `try`. -/
def entryTimestamp (duration : Json) (field : String) : Option PyDateTime :=
  match pySubscript duration field with
  | .ok (.str s) => fromisoformatCh (takeUntilDot s.data)
  | _ => none

/-- Ordered-dict accumulation `by_activity[name] = by_activity.get(name, 0) + secs`:
updates an existing key in place, otherwise appends. -/
def assocAdd : List (Json × Int) → Json → Int → List (Json × Int)
  | [], key, v => [(key, v)]
  | (k0, v0) :: rest, key, v =>
    if jsonBeq k0 key then (k0, v0 + v) :: rest
    else (k0, v0) :: assocAdd rest key v

/-- Value of the per-entry `try` block (lines 1187-1190): parse
`startedAt`, then `stoppedAt`, then subtract; `none` when any of the
three raises. -/
def reportTrySecs (duration : Json) : Option Int :=
  match entryTimestamp duration "startedAt" with
  | none => none
  | some sdt =>
    match entryTimestamp duration "stoppedAt" with
    | none => none
    | some tdt => pySub tdt sdt

/-- One iteration of the report loop (lines 1184-1194): the activity name
is extracted outside the `try` (so a malformed `activity` value raises),
while every failure of the duration arithmetic silently skips the entry;
an unhashable name also skips inside the `try`. -/
def reportStep (st : List (Json × Int) × Int) (e : Json) :
    Except PyErr (List (Json × Int) × Int) :=
  match dictGet e "activity" (.obj []) with
  | .error err => .error err
  | .ok activity =>
    match dictGet activity "name" (.str "Unknown") with
    | .error err => .error err
    | .ok name =>
      match dictGet e "duration" (.obj []) with
      | .error err => .error err
      | .ok duration =>
        match reportTrySecs duration with
        | none => .ok st
        | some secs =>
          if jsonHashable name then .ok (assocAdd st.1 name secs, st.2 + secs)
          else .ok st

/-- The report aggregation: fold of `reportStep` over the entries,
starting from the empty bucket map and zero total. -/
def report_aggregate (entries : List Json) : Except PyErr (List (Json × Int) × Int) :=
  entries.foldlM reportStep ([], 0)

/-- Stable insertion into a list sorted by descending second component. -/
def insertByDesc (x : Json × Int) : List (Json × Int) → List (Json × Int)
  | [] => [x]
  | y :: ys => if x.2 < y.2 then y :: insertByDesc x ys else x :: y :: ys

/-- Model of `sorted(by_activity.items(), key=lambda x: -x[1])`: a stable
sort by descending accumulated seconds. -/
def reportSorted : List (Json × Int) → List (Json × Int)
  | [] => []
  | x :: xs => insertByDesc x (reportSorted xs)

/-- Percentage of the grand total (line 1201):
`(secs / total_seconds * 100) if total_seconds else 0`.  The Python value
is a float; the model uses exact rationals, which agree on the zero-total
branch the claims exercise. -/
def pctOfTotal (secs total : Int) : Rat :=
  if total != 0 then (secs : Rat) / (total : Rat) * 100 else 0

/-! ### Helper lemmas -/

/-- Dispatch of `get_token` to the sign-in flow when the credential check
passes and the cached token is unusable. -/
theorem get_token_miss (apiKey apiSecret : String) (cache : TokenCache) (now : Nat)
    (env : HttpOutcome) (hk : apiKey ≠ "") (hs : apiSecret ≠ "")
    (hc : tokenCacheValid cache now = false) :
    get_token apiKey apiSecret cache now env = signInFlow apiKey apiSecret cache now env := by
  obtain ⟨tk, ex⟩ := cache
  unfold get_token
  cases tk <;> cases ex <;> simp_all [tokenCacheValid]

/-- Request list of the sign-in flow: exactly one request, the sign-in
POST, in every case. -/
theorem signInFlow_reqs (apiKey apiSecret : String) (cache : TokenCache) (now : Nat)
    (env : HttpOutcome) :
    (signInFlow apiKey apiSecret cache now env).2.2 = [mkSignInRequest apiKey apiSecret] := by
  cases env with
  | transportErr d => rfl
  | response st body d =>
    unfold signInFlow
    dsimp only
    split
    · rfl
    · cases body with
      | empty => rfl
      | invalid d2 => rfl
      | valid j =>
        dsimp only
        split <;> rfl

/-! ### Claim theorems -/

/-- C1: if either the API key or the API secret is empty, `get_token`
fails with the credentials `ValueError` (the Unauthenticated kind)
immediately: the cache is returned untouched whatever it holds, and the
request list is empty, for every network environment. -/
theorem c1_get_token_missing_creds (apiKey apiSecret : String) (cache : TokenCache)
    (now : Nat) (env : HttpOutcome) (h : apiKey = "" ∨ apiSecret = "") :
    get_token apiKey apiSecret cache now env
      = (.error (.valueError CREDS_ERROR_MSG), cache, [])
    ∧ errKind (.valueError CREDS_ERROR_MSG) = .Unauthenticated := by
  refine ⟨?_, rfl⟩
  unfold get_token
  rcases h with h | h <;> simp [h]

/-- Closed instance of `c1_get_token_missing_creds` at a concrete call
with an empty key, a populated cache and a live transport. -/
theorem c1_get_token_missing_creds_witness :
    get_token "" "secret" ⟨some "tok", some 100⟩ 5 (.transportErr "down")
      = (.error (.valueError CREDS_ERROR_MSG), ⟨some "tok", some 100⟩, [])
    ∧ errKind (.valueError CREDS_ERROR_MSG) = .Unauthenticated :=
  c1_get_token_missing_creds "" "secret" ⟨some "tok", some 100⟩ 5
    (.transportErr "down") (Or.inl rfl)

/-- C2: with credentials present, a cached non-empty token whose expiry
is strictly in the future is returned as is, with no sign-in request and
the cache unchanged; two consecutive such calls therefore both issue zero
requests and leave the cache unchanged. -/
theorem c2_get_token_cache_hit (apiKey apiSecret t : String) (exp now now2 : Nat)
    (env env2 : HttpOutcome) (hk : apiKey ≠ "") (hs : apiSecret ≠ "")
    (ht : t ≠ "") (hn : now < exp) (hn2 : now2 < exp) :
    get_token apiKey apiSecret ⟨some t, some exp⟩ now env
      = (.ok t, ⟨some t, some exp⟩, [])
    ∧ get_token apiKey apiSecret ⟨some t, some exp⟩ now2 env2
      = (.ok t, ⟨some t, some exp⟩, []) := by
  constructor <;> (unfold get_token; simp [hk, hs, ht, hn, hn2])

/-- Closed instance of `c2_get_token_cache_hit`: two calls against a
cached token expiring at 3600 read at times 0 and 1. -/
theorem c2_get_token_cache_hit_witness :
    get_token "k" "s" ⟨some "tok", some 3600⟩ 0 (.transportErr "down")
      = (.ok "tok", ⟨some "tok", some 3600⟩, [])
    ∧ get_token "k" "s" ⟨some "tok", some 3600⟩ 1 (.response 500 .empty "boom")
      = (.ok "tok", ⟨some "tok", some 3600⟩, []) :=
  c2_get_token_cache_hit "k" "s" "tok" 3600 0 1 (.transportErr "down")
    (.response 500 .empty "boom") (by decide) (by decide) (by decide)
    (by decide) (by decide)

/-- C3: with credentials present and no usable cached token, `get_token`
issues exactly the one sign-in request (fixed endpoint, credentials as the
JSON body), and whenever it returns a token it has stored that token with
expiry `now + 3600` seconds. -/
theorem c3_get_token_refresh (apiKey apiSecret : String) (cache : TokenCache) (now : Nat)
    (env : HttpOutcome) (hk : apiKey ≠ "") (hs : apiSecret ≠ "")
    (hc : tokenCacheValid cache now = false) :
    (get_token apiKey apiSecret cache now env).2.2 = [mkSignInRequest apiKey apiSecret]
    ∧ ∀ tok, (get_token apiKey apiSecret cache now env).1 = .ok tok →
        (get_token apiKey apiSecret cache now env).2.1 = ⟨some tok, some (now + 3600)⟩ := by
  rw [get_token_miss apiKey apiSecret cache now env hk hs hc]
  refine ⟨signInFlow_reqs apiKey apiSecret cache now env, ?_⟩
  intro tok htok
  cases env with
  | transportErr d => exact absurd htok (by simp [signInFlow])
  | response st body d =>
    unfold signInFlow at htok ⊢
    dsimp only at htok ⊢
    by_cases h2 : (st / 100 != 2) = true
    · rw [if_pos h2] at htok
      exact absurd htok (by simp)
    · rw [if_neg h2] at htok ⊢
      cases body with
      | empty => exact absurd htok (by simp)
      | invalid d2 => exact absurd htok (by simp)
      | valid j =>
        dsimp only at htok ⊢
        split at htok
        · exact absurd htok (by simp)
        · rename_i v hv
          obtain rfl : pyStr v = tok := by simpa using htok
          rfl

/-- Closed instance of `c3_get_token_refresh`, run at an empty cache with
a successful sign-in response carrying token `tok123` at time 50. -/
theorem c3_get_token_refresh_witness :
    (get_token "k" "s" ⟨none, none⟩ 50
        (.response 200 (.valid (.obj [("token", .str "tok123")])) "")).2.2
      = [mkSignInRequest "k" "s"]
    ∧ ∀ tok, (get_token "k" "s" ⟨none, none⟩ 50
        (.response 200 (.valid (.obj [("token", .str "tok123")])) "")).1 = .ok tok →
        (get_token "k" "s" ⟨none, none⟩ 50
          (.response 200 (.valid (.obj [("token", .str "tok123")])) "")).2.1
          = ⟨some tok, some 3650⟩ :=
  c3_get_token_refresh "k" "s" ⟨none, none⟩ 50
    (.response 200 (.valid (.obj [("token", .str "tok123")])) "")
    (by decide) (by decide) (by decide)

/-- C4: with credentials present and no usable cached token, a failed
sign-in (transport failure or non-2xx status) propagates the
corresponding error, leaves the cache exactly as it was, and issues
exactly one request; any immediately following call again issues exactly
one sign-in request. -/
theorem c4_get_token_signin_failure (apiKey apiSecret : String) (cache : TokenCache)
    (now : Nat) (hk : apiKey ≠ "") (hs : apiSecret ≠ "")
    (hc : tokenCacheValid cache now = false) :
    (∀ d, get_token apiKey apiSecret cache now (.transportErr d)
      = (.error (.transportError d), cache, [mkSignInRequest apiKey apiSecret]))
    ∧ (∀ st body d, st / 100 ≠ 2 →
        get_token apiKey apiSecret cache now (.response st body d)
          = (.error (.httpStatusError st body d), cache, [mkSignInRequest apiKey apiSecret]))
    ∧ (∀ env2, (get_token apiKey apiSecret cache now env2).2.2
        = [mkSignInRequest apiKey apiSecret]) := by
  refine ⟨?_, ?_, ?_⟩
  · intro d
    rw [get_token_miss apiKey apiSecret cache now _ hk hs hc]
    rfl
  · intro st body d hst
    rw [get_token_miss apiKey apiSecret cache now _ hk hs hc]
    unfold signInFlow
    simp [hst]
  · intro env2
    rw [get_token_miss apiKey apiSecret cache now _ hk hs hc]
    exact signInFlow_reqs apiKey apiSecret cache now env2

/-- Closed instance of `c4_get_token_signin_failure` at an expired cache,
exercising a transport failure, a 500 response, and the request count of
a follow-up call. -/
theorem c4_get_token_signin_failure_witness :
    (∀ d, get_token "k" "s" ⟨some "old", some 10⟩ 10 (.transportErr d)
      = (.error (.transportError d), ⟨some "old", some 10⟩, [mkSignInRequest "k" "s"]))
    ∧ (∀ st body d, st / 100 ≠ 2 →
        get_token "k" "s" ⟨some "old", some 10⟩ 10 (.response st body d)
          = (.error (.httpStatusError st body d), ⟨some "old", some 10⟩,
              [mkSignInRequest "k" "s"]))
    ∧ (∀ env2, (get_token "k" "s" ⟨some "old", some 10⟩ 10 env2).2.2
        = [mkSignInRequest "k" "s"]) :=
  c4_get_token_signin_failure "k" "s" ⟨some "old", some 10⟩ 10
    (by decide) (by decide) (by decide)

/-- C5: for every non-2xx status code, `handle_error` renders
`Error <code>: <message>` with the message extracted from the `message`
field whenever the body decodes to a JSON object carrying one, and with
the generic library description built from the status in every other
case (object without the field, undecodable body, empty body, decoded
non-object body); non-status failures render as `Error: <message>`; a
500 with body `{"message":"boom"}` gives `Error 500: boom` with kind
RemoteStatus 500, and a 404 status maps to the NotFound kind. -/
theorem c5_handle_error_normalization :
    (∀ st fs v d, jsonLookup fs "message" = some v →
        handle_error (.httpStatusError st (.valid (.obj fs)) d)
          = "Error " ++ toString st ++ ": " ++ pyStr v)
    ∧ (∀ st fs d, jsonLookup fs "message" = none →
        handle_error (.httpStatusError st (.valid (.obj fs)) d)
          = "Error " ++ toString st ++ ": " ++ d)
    ∧ (∀ st d d2, handle_error (.httpStatusError st (.invalid d2) d)
        = "Error " ++ toString st ++ ": " ++ d)
    ∧ (∀ st d, handle_error (.httpStatusError st .empty d)
        = "Error " ++ toString st ++ ": " ++ d)
    ∧ (∀ st j d, (∀ fs, j ≠ .obj fs) →
        handle_error (.httpStatusError st (.valid j) d)
          = "Error " ++ toString st ++ ": " ++ d)
    ∧ (∀ d, handle_error (.httpStatusError 500 (.valid (.obj [("message", .str "boom")])) d)
        = "Error 500: boom"
      ∧ errKind (.httpStatusError 500 (.valid (.obj [("message", .str "boom")])) d)
        = .RemoteStatus 500)
    ∧ (∀ m, handle_error (.transportError m) = "Error: " ++ m)
    ∧ (∀ m, handle_error (.valueError m) = "Error: " ++ m)
    ∧ (∀ body d, errKind (.httpStatusError 404 body d) = .NotFound) := by
  refine ⟨?_, ?_, fun st d d2 => rfl, fun st d => rfl, ?_, fun d => ⟨rfl, rfl⟩,
    fun m => rfl, fun m => rfl, fun body d => rfl⟩
  · intro st fs v d h
    simp [handle_error, statusErrMessage, h]
  · intro st fs d h
    simp [handle_error, statusErrMessage, h]
  · intro st j d h
    cases j with
    | obj fs => exact absurd rfl (h fs)
    | null => rfl
    | bool b => rfl
    | num n => rfl
    | str s => rfl
    | arr xs => rfl

/-- Closed instance of `c5_handle_error_normalization`, exercising the
general message extraction at status 418 with message `teapot`, the
messageless-object fallback at status 503, and the decoded non-object
fallback at status 502. -/
theorem c5_handle_error_normalization_witness :
    handle_error (.httpStatusError 418 (.valid (.obj [("message", .str "teapot")])) "desc")
      = "Error 418: teapot"
    ∧ handle_error (.httpStatusError 503 (.valid (.obj [("status", .num 503)])) "Server error")
      = "Error 503: Server error"
    ∧ handle_error (.httpStatusError 502 (.valid (.arr [.str "bad"])) "Bad gateway")
      = "Error 502: Bad gateway" :=
  ⟨c5_handle_error_normalization.1 418 [("message", .str "teapot")] (.str "teapot") "desc" rfl,
    c5_handle_error_normalization.2.1 503 [("status", .num 503)] "Server error" rfl,
    c5_handle_error_normalization.2.2.2.2.1 502 (.arr [.str "bad"]) "Bad gateway"
      (fun fs h => Json.noConfusion h)⟩

/-- C6: on a 2xx response, `api_request` returns the canonical success
marker when the status is 204 or the body is empty (even when the body
would not decode), decodes the body as JSON otherwise, and surfaces a
decode failure as a `JSONDecodeError` (the InvalidResponse kind) rather
than swallowing it. -/
theorem c6_api_request_2xx (apiKey apiSecret : String) (cache : TokenCache) (now : Nat)
    (sEnv : HttpOutcome) (method endpoint : String) (jd : Option Json)
    (tok : String) (htok : (get_token apiKey apiSecret cache now sEnv).1 = .ok tok)
    (st : Nat) (body : Body) (d : String) (h2xx : st / 100 = 2) :
    (st = 204 ∨ body = .empty →
      (api_request apiKey apiSecret cache now sEnv method endpoint jd
          (.response st body d)).1 = .ok (.obj [("success", .bool true)]))
    ∧ (∀ j, body = .valid j → st ≠ 204 →
      (api_request apiKey apiSecret cache now sEnv method endpoint jd
          (.response st body d)).1 = .ok j)
    ∧ (∀ d2, body = .invalid d2 → st ≠ 204 →
      (api_request apiKey apiSecret cache now sEnv method endpoint jd
          (.response st body d)).1 = .error (.jsonDecodeError d2)
      ∧ errKind (.jsonDecodeError d2) = .InvalidResponse) := by
  rcases hga : get_token apiKey apiSecret cache now sEnv with ⟨res, cache2, sreqs⟩
  rw [hga] at htok
  dsimp only at htok
  subst htok
  have hne : ¬(st / 100 != 2) = true := by simp [h2xx]
  refine ⟨?_, ?_, ?_⟩
  · rintro (rfl | rfl)
    · unfold api_request
      rw [hga]
      simp
    · unfold api_request
      rw [hga]
      dsimp only
      rw [if_neg hne]
      simp [Body.isEmptyContent]
  · rintro j rfl h204
    unfold api_request
    rw [hga]
    dsimp only
    rw [if_neg hne]
    have : ¬(st == 204 || Body.isEmptyContent (.valid j)) = true := by
      simp [Body.isEmptyContent, h204]
    rw [if_neg this]
  · rintro d2 rfl h204
    unfold api_request
    rw [hga]
    dsimp only
    rw [if_neg hne]
    have : ¬(st == 204 || Body.isEmptyContent (.invalid d2)) = true := by
      simp [Body.isEmptyContent, h204]
    rw [if_neg this]
    exact ⟨rfl, rfl⟩

/-- Closed instance of `c6_api_request_2xx` at a fresh token exchange and
a 200 response, covering the empty-body marker, the decoded body, and the
decode failure. -/
theorem c6_api_request_2xx_witness :
    (200 = 204 ∨ Body.empty = .empty →
      (api_request "k" "s" ⟨none, none⟩ 0
          (.response 200 (.valid (.obj [("token", .str "t")])) "") "GET" "/me" none
          (.response 200 .empty "")).1 = .ok (.obj [("success", .bool true)]))
    ∧ (∀ j, Body.empty = .valid j → 200 ≠ 204 →
      (api_request "k" "s" ⟨none, none⟩ 0
          (.response 200 (.valid (.obj [("token", .str "t")])) "") "GET" "/me" none
          (.response 200 .empty "")).1 = .ok j)
    ∧ (∀ d2, Body.empty = .invalid d2 → 200 ≠ 204 →
      (api_request "k" "s" ⟨none, none⟩ 0
          (.response 200 (.valid (.obj [("token", .str "t")])) "") "GET" "/me" none
          (.response 200 .empty "")).1 = .error (.jsonDecodeError d2)
      ∧ errKind (.jsonDecodeError d2) = .InvalidResponse) :=
  c6_api_request_2xx "k" "s" ⟨none, none⟩ 0
    (.response 200 (.valid (.obj [("token", .str "t")])) "") "GET" "/me" none
    "t" rfl 200 .empty "" rfl

/-- C7: `early_get_tracking` special-cases NotFound before generic error
formatting: a 404 status error yields the domain text
`No active tracking.` for every response body, while every other
exception is rendered by `handle_error`. -/
theorem c7_get_tracking_not_found :
    (∀ body d now, early_get_tracking (.error (.httpStatusError 404 body d)) now
        = "No active tracking.")
    ∧ (∀ e now, isStatus404 e = false →
        early_get_tracking (.error e) now = handle_error e) := by
  constructor
  · intro body d now
    rfl
  · intro e now h
    show early_get_tracking_rescue e = handle_error e
    cases e with
    | httpStatusError status body d =>
      by_cases hst : status = 404
      · subst hst
        simp [isStatus404] at h
      · unfold early_get_tracking_rescue
        split
        · rename_i heq
          injection heq with h1 h2
          exact absurd h1 hst

        · rfl
    | valueError m => rfl
    | transportError d => rfl
    | jsonDecodeError d => rfl
    | keyError k => rfl
    | typeError m => rfl
    | attributeError m => rfl

/-- Closed instance of `c7_get_tracking_not_found`: a 404 with a body and
a 500 with message `boom` against the tracking endpoint. -/
theorem c7_get_tracking_not_found_witness :
    early_get_tracking
        (.error (.httpStatusError 404 (.valid (.obj [("message", .str "missing")])) "nf"))
        ⟨738886, 0, none⟩
      = "No active tracking."
    ∧ early_get_tracking
        (.error (.httpStatusError 500 (.valid (.obj [("message", .str "boom")])) "se"))
        ⟨738886, 0, none⟩
      = handle_error (.httpStatusError 500 (.valid (.obj [("message", .str "boom")])) "se") :=
  ⟨c7_get_tracking_not_found.1 (.valid (.obj [("message", .str "missing")])) "nf"
      ⟨738886, 0, none⟩,
    c7_get_tracking_not_found.2
      (.httpStatusError 500 (.valid (.obj [("message", .str "boom")])) "se")
      ⟨738886, 0, none⟩ rfl⟩

/-- C8: `format_duration` renders the normalized, parsed pair as
`<H>h <M>m` truncated to whole minutes — the spec instance gives
`1h 30m`, and 59 minutes 59 seconds truncates to `0h 59m` — while any
call in which either timestamp fails to parse returns the sentinel `?`
instead of failing. -/
theorem c8_format_duration_policy :
    format_duration "2024-01-01T10:00:00.000Z" "2024-01-01T11:30:00.000Z" = "1h 30m"
    ∧ format_duration "2024-01-01T10:00:00" "2024-01-01T10:59:59" = "0h 59m"
    ∧ format_duration "bad" "2024-01-01T00:00:00Z" = "?"
    ∧ (∀ start stop : String,
        fromisoformatCh (normalizeTs start) = none
          ∨ fromisoformatCh (normalizeTs stop) = none →
        format_duration start stop = "?") := by
  refine ⟨by decide, by decide, by decide, ?_⟩
  intro start stop h
  unfold format_duration
  rcases h with h | h
  · rw [h]
  · cases hs : fromisoformatCh (normalizeTs start) with
    | none => rfl
    | some sdt => rw [h]

/-- Closed instance of `c8_format_duration_policy` at the spec inputs,
including the unparseable `bad` start timestamp. -/
theorem c8_format_duration_policy_witness :
    format_duration "2024-01-01T10:00:00.000Z" "2024-01-01T11:30:00.000Z" = "1h 30m"
    ∧ format_duration "nope" "2024-01-01T00:00:00" = "?" :=
  ⟨c8_format_duration_policy.1,
    c8_format_duration_policy.2.2.2 "nope" "2024-01-01T00:00:00" (Or.inl (by decide))⟩

/-! ### Aggregation lemmas for C9 -/

/-- Entries whose step is a no-op contribute nothing to the fold. -/
theorem report_aggregate_skip (l1 l2 : List Json) (e : Json)
    (h : ∀ st, reportStep st e = .ok st) :
    report_aggregate (l1 ++ e :: l2) = report_aggregate (l1 ++ l2) := by
  unfold report_aggregate
  suffices hgen : ∀ (init : List (Json × Int) × Int),
      (l1 ++ e :: l2).foldlM reportStep init = (l1 ++ l2).foldlM reportStep init by
    exact hgen ([], 0)
  induction l1 with
  | nil =>
    intro init
    rw [List.nil_append, List.nil_append, List.foldlM_cons, h init]
    rfl
  | cons x xs ih =>
    intro init
    rw [List.cons_append, List.cons_append, List.foldlM_cons, List.foldlM_cons]
    cases hx : reportStep init x with
    | error e0 => rfl
    | ok st2 =>
      show Except.ok st2 >>= _ = Except.ok st2 >>= _
      exact ih st2

/-- The step of the report loop skips an entry whose activity part is
well formed but whose timestamps fail to parse. -/
theorem reportStep_skip_of_bad_timestamps (afs : List (String × Json)) (dur : Json)
    (h : entryTimestamp dur "startedAt" = none ∨ entryTimestamp dur "stoppedAt" = none)
    (st : List (Json × Int) × Int) :
    reportStep st (.obj [("activity", .obj afs), ("duration", dur)]) = .ok st := by
  have hsecs : reportTrySecs dur = none := by
    unfold reportTrySecs
    rcases h with h | h
    · rw [h]
    · cases hs : entryTimestamp dur "startedAt" with
      | none => rfl
      | some sdt =>
        dsimp only
        rw [h]
  show (match reportTrySecs dur with
    | none => Except.ok st
    | some secs =>
      if jsonHashable ((jsonLookup afs "name").getD (.str "Unknown")) then
        Except.ok (assocAdd st.1 ((jsonLookup afs "name").getD (.str "Unknown")) secs,
          st.2 + secs)
      else .ok st) = Except.ok st
  rw [hsecs]

/-- Membership after a descending insertion. -/
theorem mem_insertByDesc (x a : Json × Int) (l : List (Json × Int))
    (ha : a ∈ insertByDesc x l) : a = x ∨ a ∈ l := by
  induction l with
  | nil => simpa [insertByDesc] using ha
  | cons y ys ih =>
    unfold insertByDesc at ha
    by_cases hxy : x.2 < y.2
    · rw [if_pos hxy] at ha
      rcases List.mem_cons.mp ha with rfl | ha2
      · exact Or.inr (List.mem_cons_self _ _)
      · rcases ih ha2 with h | h
        · exact Or.inl h
        · exact Or.inr (List.mem_cons_of_mem _ h)
    · rw [if_neg hxy] at ha
      rcases List.mem_cons.mp ha with rfl | ha2
      · exact Or.inl rfl
      · exact Or.inr ha2

/-- Descending insertion preserves descending order. -/
theorem insertByDesc_pairwise (x : Json × Int) (l : List (Json × Int))
    (hl : l.Pairwise (fun a b => b.2 ≤ a.2)) :
    (insertByDesc x l).Pairwise (fun a b => b.2 ≤ a.2) := by
  induction l with
  | nil => simp [insertByDesc]
  | cons y ys ih =>
    rw [List.pairwise_cons] at hl
    obtain ⟨hy, hys⟩ := hl
    unfold insertByDesc
    by_cases hxy : x.2 < y.2
    · rw [if_pos hxy]
      rw [List.pairwise_cons]
      refine ⟨?_, ih hys⟩
      intro a ha
      rcases mem_insertByDesc x a ys ha with rfl | ha2
      · exact le_of_lt hxy
      · exact hy a ha2
    · rw [if_neg hxy]
      rw [List.pairwise_cons]
      refine ⟨?_, List.pairwise_cons.mpr ⟨hy, hys⟩⟩
      intro a ha
      rcases List.mem_cons.mp ha with rfl | ha2
      · exact le_of_not_lt hxy
      · exact le_trans (hy a ha2) (le_of_not_lt hxy)

/-- The rendering order of the report is sorted by descending total. -/
theorem reportSorted_pairwise (xs : List (Json × Int)) :
    (reportSorted xs).Pairwise (fun a b => b.2 ≤ a.2) := by
  induction xs with
  | nil => simp [reportSorted]
  | cons x l ih => exact insertByDesc_pairwise x (reportSorted l) ih

/-- C9: the report aggregation sums whole-second durations grouped by
activity label — the spec entries of 3600 s for A, 1800 s for B, 1800 s
for A give `{A: 5400, B: 1800}` with grand total 7200 — entries whose
timestamps fail to parse are skipped without aborting the surrounding
report, the rendering order is sorted by descending total, and the
percentage of a zero grand total is 0 with no division performed. -/
theorem c9_report_aggregation :
    report_aggregate
        [.obj [("activity", .obj [("name", .str "A")]),
            ("duration", .obj [("startedAt", .str "2024-01-01T10:00:00.000"),
              ("stoppedAt", .str "2024-01-01T11:00:00.000")])],
          .obj [("activity", .obj [("name", .str "B")]),
            ("duration", .obj [("startedAt", .str "2024-01-01T11:00:00.000"),
              ("stoppedAt", .str "2024-01-01T11:30:00.000")])],
          .obj [("activity", .obj [("name", .str "A")]),
            ("duration", .obj [("startedAt", .str "2024-01-01T12:00:00.000"),
              ("stoppedAt", .str "2024-01-01T12:30:00.000")])]]
      = .ok ([(.str "A", 5400), (.str "B", 1800)], 7200)
    ∧ (∀ (l1 l2 : List Json) (afs : List (String × Json)) (dur : Json),
        entryTimestamp dur "startedAt" = none
          ∨ entryTimestamp dur "stoppedAt" = none →
        report_aggregate (l1 ++ (Json.obj [("activity", .obj afs), ("duration", dur)]) :: l2)
          = report_aggregate (l1 ++ l2))
    ∧ reportSorted [(.str "B", 1800), (.str "A", 5400)]
      = [(.str "A", 5400), (.str "B", 1800)]
    ∧ (∀ xs, (reportSorted xs).Pairwise (fun a b => b.2 ≤ a.2))
    ∧ (∀ secs, pctOfTotal secs 0 = 0) := by
  refine ⟨rfl, ?_, rfl, reportSorted_pairwise, ?_⟩
  · intro l1 l2 afs dur h
    exact report_aggregate_skip l1 l2 _ (reportStep_skip_of_bad_timestamps afs dur h)
  · intro secs
    simp [pctOfTotal]

/-- Closed instance of `c9_report_aggregation`: one malformed middle
entry (unparseable `startedAt`) is skipped, so the totals equal those of
the well-formed entries alone. -/
theorem c9_report_aggregation_witness :
    report_aggregate
        [.obj [("activity", .obj [("name", .str "A")]),
            ("duration", .obj [("startedAt", .str "2024-01-01T10:00:00.000"),
              ("stoppedAt", .str "2024-01-01T11:00:00.000")])],
          Json.obj [("activity", .obj [("name", .str "C")]),
            ("duration", .obj [("startedAt", .str "garbage"),
              ("stoppedAt", .str "2024-01-01T11:30:00.000")])],
          .obj [("activity", .obj [("name", .str "A")]),
            ("duration", .obj [("startedAt", .str "2024-01-01T12:00:00.000"),
              ("stoppedAt", .str "2024-01-01T12:30:00.000")])]]
      = report_aggregate
        [.obj [("activity", .obj [("name", .str "A")]),
            ("duration", .obj [("startedAt", .str "2024-01-01T10:00:00.000"),
              ("stoppedAt", .str "2024-01-01T11:00:00.000")])],
          .obj [("activity", .obj [("name", .str "A")]),
            ("duration", .obj [("startedAt", .str "2024-01-01T12:00:00.000"),
              ("stoppedAt", .str "2024-01-01T12:30:00.000")])]] :=
  c9_report_aggregation.2.1
    [.obj [("activity", .obj [("name", .str "A")]),
        ("duration", .obj [("startedAt", .str "2024-01-01T10:00:00.000"),
          ("stoppedAt", .str "2024-01-01T11:00:00.000")])]]
    [.obj [("activity", .obj [("name", .str "A")]),
        ("duration", .obj [("startedAt", .str "2024-01-01T12:00:00.000"),
          ("stoppedAt", .str "2024-01-01T12:30:00.000")])]]
    [("name", .str "C")]
    (.obj [("startedAt", .str "garbage"), ("stoppedAt", .str "2024-01-01T11:30:00.000")])
    (Or.inl (by decide))

/-- C10: when both timestamps parse and the difference is defined and
negative (stop strictly before start), `format_duration` does not return
the sentinel: it renders the floor-divided hour count and the
non-negative remainder minutes, so reversing a 1 h 30 m interval gives
`-2h 30m`. -/
theorem c10_negative_duration (start stop : String) (sdt edt : PyDateTime) (delta : Int)
    (hs : fromisoformatCh (normalizeTs start) = some sdt)
    (he : fromisoformatCh (normalizeTs stop) = some edt)
    (hd : pySub edt sdt = some delta) (hneg : delta < 0) :
    format_duration start stop
      = toString (Int.fdiv delta 3600) ++ "h "
        ++ toString (Int.fdiv (Int.fmod delta 3600) 60) ++ "m"
    ∧ 0 ≤ Int.fmod delta 3600
    ∧ format_duration "2024-01-01T11:30:00" "2024-01-01T10:00:00" = "-2h 30m" := by
  refine ⟨?_, ?_, rfl⟩
  · unfold format_duration
    rw [hs]
    dsimp only
    rw [he]
    dsimp only
    rw [hd]
    rfl
  · rw [Int.fmod_eq_emod _ (by norm_num)]
    exact Int.emod_nonneg _ (by norm_num)

/-- Closed instance of `c10_negative_duration` at the reversed interval
from the spec example. -/
theorem c10_negative_duration_witness :
    format_duration "2024-01-01T11:30:00" "2024-01-01T10:00:00"
      = toString (Int.fdiv (-5400) 3600) ++ "h "
        ++ toString (Int.fdiv (Int.fmod (-5400) 3600) 60) ++ "m"
    ∧ 0 ≤ Int.fmod (-5400 : Int) 3600
    ∧ format_duration "2024-01-01T11:30:00" "2024-01-01T10:00:00" = "-2h 30m" :=
  c10_negative_duration "2024-01-01T11:30:00" "2024-01-01T10:00:00"
    ⟨738886, 41400, none⟩ ⟨738886, 36000, none⟩ (-5400)
    (by decide) (by decide) (by decide) (by decide)

end EarlyMCP
